import Mathlib

/-!
Shallow embedding of the shift-lifecycle / policy / quiz-scoring core of
`src/web/mvp.py` (yagoda-bot), together with theorems checking the
natural-language specification against it.

Modelling conventions:
* `datetime` values are integers counting minutes (`timedelta(minutes=m)`
  becomes `+ m`; `timedelta(days=30)` becomes `30*24*60 = 43200`).
* Python dictionaries (`store.companies`, `store.shifts`, ...) are
  association lists `List (String × α)`; `dict.get` is `dget`,
  `dict[k] = v` is `dput`, `.values()` is `dvalues`.
* Each `raise HTTPException(...)` site becomes one constructor of
  `ApiError`, keeping the source's status code and detail string.
* `_utc_now()` is passed in as a parameter `now`; within one request the
  source's repeated calls observe the same clock tick.
* `uuid4().hex` fresh ids are passed in as a parameter `newId`.
* Python `float` amounts are modelled as `ℚ` (they are only stored and
  compared, never subjected to float rounding in the embedded code).
-/

/-- `dict.get k` on an association list: first binding of the key. -/
def dget {α : Type} (l : List (String × α)) (k : String) : Option α :=
  (l.find? (fun p => p.1 == k)).map Prod.snd

/-- `dict[k] = v`: replace the binding of `k` if present, else append. -/
def dput {α : Type} (l : List (String × α)) (k : String) (v : α) : List (String × α) :=
  if l.any (fun p => p.1 == k) then
    l.map (fun p => if p.1 == k then (k, v) else p)
  else
    l ++ [(k, v)]

/-- `dict.values()`. -/
def dvalues {α : Type} (l : List (String × α)) : List α :=
  l.map Prod.snd

/-- Python truthiness of an optional string: `None` and `""` are falsy. -/
def optStrFalsy : Option String → Bool
  | none => true
  | some s => s == ""

/-- `PolicySettings` pydantic model with its field defaults (mvp.py lines 22-35). -/
structure PolicySettings where
  shift_close_deadline_minutes : Int := 90
  reminders_enabled : Bool := true
  reminder_schedule_minutes : List Int := [30, 60]
  require_opening_checklist : Bool := true
  require_closing_checklist : Bool := true
  require_open_photo : Bool := false
  require_close_photo : Bool := false
  require_cash_open : Bool := false
  require_cash_close : Bool := false
  tests_block_shift_closure : Bool := true
  monthly_test_required : Bool := true
  random_test_probability : ℚ := 0
  high_incident_notify_owner : Bool := true
deriving DecidableEq, Repr

structure Company where
  id : String
  name : String
  timezone : String
  created_at : Int
deriving DecidableEq, Repr

structure Location where
  id : String
  company_id : String
  name : String
deriving DecidableEq, Repr

structure User where
  id : String
  company_id : String
  telegram_id : String
  name : String
  role : String
  status : String
deriving DecidableEq, Repr

structure CashLog where
  type : String            -- "open" | "close"
  amount : ℚ
  created_at : Int
deriving DecidableEq, Repr

structure OpenData where
  checklist : List String
  photo_url : Option String
deriving DecidableEq, Repr

structure CloseData where
  checklist : List String
  photo_url : Option String
  write_off_reason : Option String
  notes : Option String
deriving DecidableEq, Repr

inductive ShiftStatus where
  | OPEN
  | CLOSED
  | EXPIRED
deriving DecidableEq, Repr

structure Shift where
  id : String
  company_id : String
  location_id : String
  user_id : String
  start_at : Int
  end_at : Option Int
  status : ShiftStatus
  close_deadline_at : Int
  open_data : OpenData
  close_data : Option CloseData
  cash_logs : List CashLog
deriving DecidableEq, Repr

structure Quiz where
  id : String
  company_id : String
  title : String
  type : String            -- "onboarding" | "monthly" | "random"
  passing_score : Int
deriving DecidableEq, Repr

structure QuizQuestion where
  id : String
  quiz_id : String
  text : String
  answers : List String
  correct_answers : List Int
  explanation : Option String
deriving DecidableEq, Repr

structure QuizAttempt where
  id : String
  quiz_id : String
  user_id : String
  started_at : Int
  finished_at : Int
  score : Int
  passed : Bool
deriving DecidableEq, Repr

structure ShiftOpenRequest where
  location_id : String
  user_id : String
  open_checklist : List String := []
  open_photo_url : Option String := none
  cash_open_amount : Option ℚ := none
deriving DecidableEq, Repr

structure ShiftCloseRequest where
  close_checklist : List String := []
  close_photo_url : Option String := none
  cash_close_amount : Option ℚ := none
  write_off_reason : Option String := none
  notes : Option String := none
deriving DecidableEq, Repr

structure QuizAttemptCreate where
  user_id : String
  answers : List (String × List Int)
deriving DecidableEq, Repr

/-- The subset of the global `Store` dataclass touched by the embedded operations. -/
structure Store where
  companies : List (String × Company) := []
  locations : List (String × Location) := []
  users : List (String × User) := []
  policies : List (String × PolicySettings) := []
  shifts : List (String × Shift) := []
  quizzes : List (String × Quiz) := []
  quiz_questions : List (String × QuizQuestion) := []
  quiz_attempts : List (String × QuizAttempt) := []
deriving DecidableEq, Repr

/-- One constructor per `raise HTTPException(status_code, detail)` site in the
embedded functions. -/
inductive ApiError where
  | companyNotFound          -- 404 "Company not found"
  | userNotFound             -- 404 "User not found"
  | locationNotFound         -- 404 "Location not found"
  | shiftNotFound            -- 404 "Shift not found"
  | quizNotFound             -- 404 "Quiz not found"
  | openingChecklistRequired -- 400 "Opening checklist required"
  | openingPhotoRequired     -- 400 "Opening photo required"
  | openingCashRequired      -- 400 "Opening cash amount required"
  | alreadyHasOpenShift      -- 400 "User already has an open shift" (Conflict)
  | shiftNotOpen             -- 400 "Shift is not open" (InvalidState)
  | shiftExpired             -- 400 "Shift expired and cannot be closed" (InvalidState)
  | monthlyTestOverdue       -- 400 "Monthly test is overdue"
  | closingChecklistRequired -- 400 "Closing checklist required"
  | closingPhotoRequired     -- 400 "Closing photo required"
  | closingCashRequired      -- 400 "Closing cash amount required"
deriving DecidableEq, Repr

/-- HTTP status code carried by each raise site in the source. -/
def ApiError.statusCode : ApiError → Nat
  | .companyNotFound => 404
  | .userNotFound => 404
  | .locationNotFound => 404
  | .shiftNotFound => 404
  | .quizNotFound => 404
  | _ => 400

/-- `_get_policy`: `store.policies.get(company_id, PolicySettings())`. -/
def _get_policy (st : Store) (company_id : String) : PolicySettings :=
  (dget st.policies company_id).getD {}

/-- `timedelta(days=30)` in minutes. -/
def thirtyDaysMinutes : Int := 30 * 24 * 60

/-- `answers.get(question.id, [])` on the submitted-answers dict. -/
def aget (answers : List (String × List Int)) (k : String) : List Int :=
  ((answers.find? (fun p => p.1 == k)).map Prod.snd).getD []

/-- Python `sorted` on a list of ints (ascending). -/
def pySorted (l : List Int) : List Int :=
  List.insertionSort (· ≤ ·) l

/-- Python `round` applied to the exact rational `num / den` (`den > 0`):
round half to even (banker's rounding), computed with integer arithmetic so a
witness can evaluate it. `q` is the floor, `r` the remainder, and `2r` is
compared with `den` to place the fraction relative to 1/2. -/
def pyRound (num den : Int) : Int :=
  let q := Int.fdiv num den
  let r := num - q * den
  if 2 * r < den then q
  else if den < 2 * r then q + 1
  else if q % 2 = 0 then q else q + 1

/-- The list comprehension `[q for q in store.quiz_questions.values() if q.quiz_id == quiz_id]`. -/
def quiz_questions_of (st : Store) (quiz_id : String) : List QuizQuestion :=
  (dvalues st.quiz_questions).filter (fun q => q.quiz_id == quiz_id)

/-- Whether one question counts as correct: `sorted(selected) == sorted(question.correct_answers)`. -/
def question_correct (answers : List (String × List Int)) (q : QuizQuestion) : Bool :=
  pySorted (aget answers q.id) == pySorted q.correct_answers

/-- `_score_attempt(quiz_id, answers)` (mvp.py lines 728-737): collect the
quiz's questions, count those whose sorted submitted selection equals the
sorted correct-answer list, return `round((correct / total) * 100)`
(0 when there are no questions). -/
def _score_attempt (st : Store) (quiz_id : String) (answers : List (String × List Int)) : Int :=
  let quiz_questions := quiz_questions_of st quiz_id
  if quiz_questions.isEmpty then 0
  else
    let correct := quiz_questions.countP (question_correct answers)
    -- round((correct / total) * 100) on the exact rational (correct · 100) / total
    pyRound ((correct : Int) * 100) (quiz_questions.length : Int)

/-- The set comprehension building `monthly_quiz_ids` in `_monthly_test_passed`
(set membership modelled as list membership). -/
def monthly_quiz_ids (st : Store) (company_id : String) : List String :=
  ((dvalues st.quizzes).filter
    (fun q => q.company_id == company_id && q.type == "monthly")).map (·.id)

/-- The list comprehension building `attempts` in `_monthly_test_passed`:
this user's passing attempts on the company's monthly quizzes. -/
def monthly_passing_attempts (st : Store) (company_id user_id : String) : List QuizAttempt :=
  (dvalues st.quiz_attempts).filter
    (fun a => (monthly_quiz_ids st company_id).contains a.quiz_id
              && a.user_id == user_id && a.passed)

/-- `_monthly_test_passed(company_id, user_id)` (mvp.py lines 515-532). -/
def _monthly_test_passed (st : Store) (now : Int) (company_id user_id : String) : Bool :=
  let policy := _get_policy st company_id
  if !policy.monthly_test_required then
    true
  else if (monthly_quiz_ids st company_id).isEmpty then
    false
  else
    match monthly_passing_attempts st company_id user_id with
    | [] => false
    | a :: rest =>
      -- max(attempts, key=lambda attempt: attempt.finished_at): first maximal
      let latest_attempt :=
        rest.foldl (fun best x => if x.finished_at > best.finished_at then x else best) a
      decide (latest_attempt.finished_at ≥ now - thirtyDaysMinutes)

/-- `_validate_shift_open(policy, payload)`: first failing check, if any. -/
def _validate_shift_open (policy : PolicySettings) (payload : ShiftOpenRequest) :
    Option ApiError :=
  if policy.require_opening_checklist && payload.open_checklist.isEmpty then
    some .openingChecklistRequired
  else if policy.require_open_photo && optStrFalsy payload.open_photo_url then
    some .openingPhotoRequired
  else if policy.require_cash_open && payload.cash_open_amount.isNone then
    some .openingCashRequired
  else
    none

/-- The `Shift(...)` record constructed by `open_shift` (mvp.py lines 558-577). -/
def openedShift (policy : PolicySettings) (now : Int) (newId : String)
    (company_id : String) (payload : ShiftOpenRequest) : Shift :=
  { id := newId
    company_id := company_id
    location_id := payload.location_id
    user_id := payload.user_id
    start_at := now
    end_at := none
    status := .OPEN
    close_deadline_at := now + policy.shift_close_deadline_minutes
    open_data := { checklist := payload.open_checklist,
                   photo_url := payload.open_photo_url }
    close_data := none
    cash_logs :=
      match payload.cash_open_amount with
      | some a =>
        -- `payload.cash_open_amount or 0.0`: a falsy amount (0.0) becomes 0.0
        [{ type := "open", amount := if a == 0 then 0 else a, created_at := now }]
      | none => [] }

/-- The Python truthiness test on `dvalues st.shifts` used by the duplicate-open
check: is there a shift of this company and user with status OPEN. -/
def hasOpenShiftFor (st : Store) (company_id user_id : String) : Bool :=
  (dvalues st.shifts).any (fun s =>
    s.company_id == company_id && s.user_id == user_id && s.status == .OPEN)

/-- `open_shift(company_id, payload)` (mvp.py lines 535-579). Returns the
result together with the post-call store (the store is unchanged on every
error path of this function). -/
def open_shift (st : Store) (now : Int) (newId : String) (company_id : String)
    (payload : ShiftOpenRequest) : Except ApiError Shift × Store :=
  if (dget st.companies company_id).isNone then (.error .companyNotFound, st)
  else
    let policy := _get_policy st company_id
    match _validate_shift_open policy payload with
    | some e => (.error e, st)
    | none =>
      if (dget st.users payload.user_id).isNone then (.error .userNotFound, st)
      else if (dget st.locations payload.location_id).isNone then (.error .locationNotFound, st)
      else if hasOpenShiftFor st company_id payload.user_id then
        (.error .alreadyHasOpenShift, st)
      else
        let shift := openedShift policy now newId company_id payload
        (.ok shift, { st with shifts := dput st.shifts shift.id shift })

/-- `_validate_shift_close(policy, payload)`: first failing check, if any. -/
def _validate_shift_close (policy : PolicySettings) (payload : ShiftCloseRequest) :
    Option ApiError :=
  if policy.require_closing_checklist && payload.close_checklist.isEmpty then
    some .closingChecklistRequired
  else if policy.require_close_photo && optStrFalsy payload.close_photo_url then
    some .closingPhotoRequired
  else if policy.require_cash_close && payload.cash_close_amount.isNone then
    some .closingCashRequired
  else
    none

/-- The in-place mutation of the expiry branch of `close_shift` (mvp.py lines
601-602): `shift.status = "EXPIRED"; shift.end_at = _utc_now()`. -/
def expiredOf (shift : Shift) (now : Int) : Shift :=
  { shift with status := .EXPIRED, end_at := some now }

/-- The in-place mutation of the success branch of `close_shift` (mvp.py lines
608-619): status CLOSED, end_at, close_data, optional appended cash log. -/
def closedOf (shift : Shift) (now : Int) (payload : ShiftCloseRequest) : Shift :=
  { shift with
    status := .CLOSED
    end_at := some now
    close_data := some
      { checklist := payload.close_checklist
        photo_url := payload.close_photo_url
        write_off_reason := payload.write_off_reason
        notes := payload.notes }
    cash_logs := shift.cash_logs ++
      (match payload.cash_close_amount with
       | some a => [{ type := "close", amount := a, created_at := now }]
       | none => []) }

/-- `close_shift(company_id, shift_id, payload)` (mvp.py lines 593-621).
The deadline (expiry) branch persists the EXPIRED shift before raising;
every other error path leaves the store unchanged. -/
def close_shift (st : Store) (now : Int) (company_id shift_id : String)
    (payload : ShiftCloseRequest) : Except ApiError Shift × Store :=
  if (dget st.companies company_id).isNone then (.error .companyNotFound, st)
  else
    let policy := _get_policy st company_id
    match dget st.shifts shift_id with
    | none => (.error .shiftNotFound, st)
    | some shift =>
      if shift.company_id != company_id then (.error .shiftNotFound, st)
      else if shift.status != .OPEN then (.error .shiftNotOpen, st)
      else if now > shift.close_deadline_at then
        let expired := expiredOf shift now
        (.error .shiftExpired, { st with shifts := dput st.shifts expired.id expired })
      else if policy.tests_block_shift_closure &&
          !(_monthly_test_passed st now company_id shift.user_id) then
        (.error .monthlyTestOverdue, st)
      else
        match _validate_shift_close policy payload with
        | some e => (.error e, st)
        | none =>
          let closed := closedOf shift now payload
          (.ok closed, { st with shifts := dput st.shifts closed.id closed })

/-- `create_quiz_attempt(company_id, quiz_id, payload)` (mvp.py lines 740-763). -/
def create_quiz_attempt (st : Store) (now : Int) (newId : String)
    (company_id quiz_id : String) (payload : QuizAttemptCreate) :
    Except ApiError QuizAttempt × Store :=
  if (dget st.companies company_id).isNone then (.error .companyNotFound, st)
  else
    match dget st.quizzes quiz_id with
    | none => (.error .quizNotFound, st)
    | some quiz =>
      if quiz.company_id != company_id then (.error .quizNotFound, st)
      else
        let score := _score_attempt st quiz_id payload.answers
        let attempt : QuizAttempt :=
          { id := newId
            quiz_id := quiz_id
            user_id := payload.user_id
            started_at := now
            finished_at := now
            score := score
            passed := decide (score ≥ quiz.passing_score) }
        (.ok attempt, { st with quiz_attempts := dput st.quiz_attempts attempt.id attempt })

/-! ### Invariant vocabulary -/

/-- Number of shifts in the store with the given company, user and status OPEN. -/
def openCountFor (st : Store) (cid uid : String) : Nat :=
  (dvalues st.shifts).countP
    (fun s => s.company_id == cid && s.user_id == uid && s.status == ShiftStatus.OPEN)

/-- The spec's §3 invariant: at most one OPEN shift per `(company_id, user_id)`. -/
def AtMostOneOpen (st : Store) : Prop :=
  ∀ cid uid, openCountFor st cid uid ≤ 1

/-- Well-formedness of the shifts dict: each record is stored under its own id
(every write in the source is `store.shifts[shift.id] = shift`). -/
def ShiftsWF (l : List (String × Shift)) : Prop :=
  ∀ p ∈ l, p.1 = p.2.id

/-! ### Concrete data used by witnesses and counterexamples -/

def cCompany : Company :=
  { id := "c1", name := "Acme", timezone := "Europe/Moscow", created_at := 0 }

def cLocation : Location :=
  { id := "l1", company_id := "c1", name := "Main" }

def cUser : User :=
  { id := "u1", company_id := "c1", telegram_id := "tg1", name := "Ann",
    role := "staff", status := "active" }

/-- An OPEN shift of user u1 at company c1, opened at time 0, deadline 90. -/
def cShiftOpen : Shift :=
  { id := "s0", company_id := "c1", location_id := "l1", user_id := "u1",
    start_at := 0, end_at := none, status := .OPEN, close_deadline_at := 90,
    open_data := { checklist := ["lights"], photo_url := none },
    close_data := none, cash_logs := [] }

/-- Same shift already CLOSED. -/
def cShiftClosed : Shift :=
  { cShiftOpen with status := .CLOSED, end_at := some 50 }

/-- Store with company c1, location l1, user u1 and one OPEN shift for (c1, u1). -/
def cStoreOpen : Store :=
  { companies := [("c1", cCompany)]
    locations := [("l1", cLocation)]
    users := [("u1", cUser)]
    shifts := [("s0", cShiftOpen)] }

/-- Same store, shift already CLOSED. -/
def cStoreClosed : Store :=
  { cStoreOpen with shifts := [("s0", cShiftClosed)] }

/-- Same store, no shift at all. -/
def cStoreNoShift : Store :=
  { cStoreOpen with shifts := [] }

def cOpenPayload : ShiftOpenRequest :=
  { location_id := "l1", user_id := "u1", open_checklist := ["lights"] }

def cClosePayload : ShiftCloseRequest :=
  { close_checklist := ["till"] }

/-- Quiz data for the scoring claims: one quiz with a single 1-correct-answer
question (used to exhibit the duplicate-selection behaviour). -/
def cQuiz1 : Quiz :=
  { id := "qz1", company_id := "c1", title := "Monthly", type := "monthly",
    passing_score := 70 }

def cQuestion1 : QuizQuestion :=
  { id := "q1", quiz_id := "qz1", text := "Q", answers := ["a", "b"],
    correct_answers := [0], explanation := none }

def cStoreQuiz1 : Store :=
  { companies := [("c1", cCompany)]
    quizzes := [("qz1", cQuiz1)]
    quiz_questions := [("q1", cQuestion1)] }

/-- A 4-question quiz (passing score 70) and a second one (passing score 80),
for the 3-of-4 ⇒ 75 scoring scenario. -/
def cQuizA : Quiz :=
  { id := "qzA", company_id := "c1", title := "A", type := "monthly",
    passing_score := 70 }

def cQuizB : Quiz :=
  { id := "qzB", company_id := "c1", title := "B", type := "monthly",
    passing_score := 80 }

def cQuestionsA : List (String × QuizQuestion) :=
  [("qa1", { id := "qa1", quiz_id := "qzA", text := "1", answers := ["a", "b", "c"],
             correct_answers := [0], explanation := none }),
   ("qa2", { id := "qa2", quiz_id := "qzA", text := "2", answers := ["a", "b", "c"],
             correct_answers := [1], explanation := none }),
   ("qa3", { id := "qa3", quiz_id := "qzA", text := "3", answers := ["a", "b", "c"],
             correct_answers := [0, 2], explanation := none }),
   ("qa4", { id := "qa4", quiz_id := "qzA", text := "4", answers := ["a", "b", "c"],
             correct_answers := [2], explanation := none })]

def cQuestionsB : List (String × QuizQuestion) :=
  [("qb1", { id := "qb1", quiz_id := "qzB", text := "1", answers := ["a", "b", "c"],
             correct_answers := [0], explanation := none }),
   ("qb2", { id := "qb2", quiz_id := "qzB", text := "2", answers := ["a", "b", "c"],
             correct_answers := [1], explanation := none }),
   ("qb3", { id := "qb3", quiz_id := "qzB", text := "3", answers := ["a", "b", "c"],
             correct_answers := [0, 2], explanation := none }),
   ("qb4", { id := "qb4", quiz_id := "qzB", text := "4", answers := ["a", "b", "c"],
             correct_answers := [2], explanation := none })]

def cStoreScoring : Store :=
  { companies := [("c1", cCompany)]
    quizzes := [("qzA", cQuizA), ("qzB", cQuizB)]
    quiz_questions := cQuestionsA ++ cQuestionsB }

/-- Answers hitting exactly 3 of the 4 questions of quiz A (wrong on qa4). -/
def cAnswers3of4A : List (String × List Int) :=
  [("qa1", [0]), ("qa2", [1]), ("qa3", [2, 0]), ("qa4", [1])]

/-- Answers hitting exactly 3 of the 4 questions of quiz B (wrong on qb4). -/
def cAnswers3of4B : List (String × List Int) :=
  [("qb1", [0]), ("qb2", [1]), ("qb3", [2, 0]), ("qb4", [1])]

/-- Policy for the spec's §8 concrete cash scenario: deadline 90 and
`require_cash_close`; the monthly-test gate and closing checklist are off so
that the scenario exercises exactly the cash check. -/
def cPolicyCash : PolicySettings :=
  { shift_close_deadline_minutes := 90
    require_cash_close := true
    require_closing_checklist := false
    tests_block_shift_closure := false }

/-- Store for the §8 cash scenario: company, location, user, the cash policy,
and no shift yet. -/
def cStoreCash : Store :=
  { companies := [("c1", cCompany)]
    locations := [("l1", cLocation)]
    users := [("u1", cUser)]
    policies := [("c1", cPolicyCash)] }

/-- The open request of the §8 scenario: checklist ["lights"], no photo,
cash_open = 100.0. -/
def cCashOpenPayload : ShiftOpenRequest :=
  { location_id := "l1", user_id := "u1", open_checklist := ["lights"],
    cash_open_amount := some 100 }

/-- The store after the §8 scenario's open succeeds. -/
def cStoreCashOpened : Store :=
  (open_shift cStoreCash 0 "s1" "c1" cCashOpenPayload).2

/-- The attempt record created for quiz A (3 of 4 correct, threshold 70). -/
def cAttemptA : QuizAttempt :=
  { id := "at1", quiz_id := "qzA", user_id := "u1", started_at := 5,
    finished_at := 5, score := 75, passed := true }

/-- The attempt record created for quiz B (3 of 4 correct, threshold 80). -/
def cAttemptB : QuizAttempt :=
  { id := "at2", quiz_id := "qzB", user_id := "u1", started_at := 5,
    finished_at := 5, score := 75, passed := false }

/-- Policy with `shift_close_deadline_minutes = 0` for the deadline property. -/
def cPolicyZero : PolicySettings :=
  { shift_close_deadline_minutes := 0 }

/-- Store with the zero-deadline policy for company c1 and no shift yet. -/
def cStoreZero : Store :=
  { companies := [("c1", cCompany)]
    locations := [("l1", cLocation)]
    users := [("u1", cUser)]
    policies := [("c1", cPolicyZero)] }

/-! ### Association-list (Python dict) lemmas -/

theorem dget_cons {α : Type} (p : String × α) (t : List (String × α)) (k : String) :
    dget (p :: t) k = if p.1 == k then some p.2 else dget t k := by
  simp only [dget, List.find?_cons]
  rcases h : (p.1 == k) with _ | _ <;> simp [h]

theorem dput_cons {α : Type} (p : String × α) (t : List (String × α)) (k : String) (v : α) :
    dput (p :: t) k v =
      if p.1 == k then
        (k, v) :: t.map (fun q => if q.1 == k then (k, v) else q)
      else
        p :: dput t k v := by
  by_cases hp : p.1 == k
  · simp [dput, List.any_cons, hp]
    intro h'
    exact absurd (by simpa using hp) h'
  · by_cases ht : t.any (fun q => q.1 == k)
    · simp [dput, List.any_cons, hp, ht]
      intro h'
      exact absurd h' (by simpa using hp)
    · simp [dput, List.any_cons, hp, ht]

theorem dget_map_update_ne {α : Type} {k k' : String} (h : k' ≠ k)
    (l : List (String × α)) (v : α) :
    dget (l.map (fun q => if q.1 == k then (k, v) else q)) k' = dget l k' := by
  induction l with
  | nil => rfl
  | cons q t ih =>
    simp only [List.map_cons]
    by_cases hq : q.1 == k
    · have hq' : q.1 = k := by simpa using hq
      have hk : (k == k') = false := by simpa using (Ne.symm h)
      have hq2 : (q.1 == k') = false := by rw [hq']; exact hk
      rw [if_pos hq, dget_cons, dget_cons, if_neg (by simp [hk]), if_neg (by simp [hq2])]
      exact ih
    · rw [if_neg hq, dget_cons, dget_cons, ih]

theorem dget_dput_self {α : Type} (l : List (String × α)) (k : String) (v : α) :
    dget (dput l k v) k = some v := by
  induction l with
  | nil => simp [dput, dget]
  | cons p t ih =>
    rw [dput_cons]
    by_cases hp : p.1 == k
    · rw [if_pos hp, dget_cons]; simp
    · rw [if_neg hp, dget_cons, if_neg hp, ih]

theorem dget_dput_ne {α : Type} {k k' : String} (h : k' ≠ k)
    (l : List (String × α)) (v : α) :
    dget (dput l k v) k' = dget l k' := by
  induction l with
  | nil =>
    have : (k == k') = false := by simpa using (Ne.symm h)
    simp [dput, dget, this]
  | cons p t ih =>
    rw [dput_cons]
    by_cases hp : p.1 == k
    · rw [if_pos hp, dget_cons]
      have hk : (k == k') = false := by simpa using (Ne.symm h)
      rw [if_neg (by simp [hk]), dget_map_update_ne h, dget_cons]
      have hq2 : (p.1 == k') = false := by
        have hp' : p.1 = k := by simpa using hp
        simp [hp', hk]
      simp [hq2]
    · rw [if_neg hp, dget_cons, dget_cons, ih]

theorem dput_fresh {α : Type} {l : List (String × α)} {k : String}
    (h : dget l k = none) (v : α) :
    dput l k v = l ++ [(k, v)] := by
  have hfind : l.find? (fun q => q.1 == k) = none := by
    cases hf : l.find? (fun q => q.1 == k) with
    | none => rfl
    | some p => rw [dget, hf] at h; simp at h
  have hany : l.any (fun q => q.1 == k) = false := by
    cases ha : l.any (fun q => q.1 == k) with
    | false => rfl
    | true =>
      obtain ⟨p, hp, hpk⟩ := List.any_eq_true.mp ha
      exact absurd hpk (List.find?_eq_none.mp hfind p hp)
  simp [dput, hany]

/-! ### Counting lemmas for the one-open-shift invariant -/

theorem countP_dvalues_map_update_le {k : String} {v : Shift} {p : Shift → Bool}
    (hv : p v = false) (l : List (String × Shift)) :
    (dvalues (l.map (fun q => if q.1 == k then (k, v) else q))).countP p ≤
      (dvalues l).countP p := by
  induction l with
  | nil => simp [dvalues]
  | cons q t ih =>
    by_cases hq : q.1 == k
    · simp only [List.map_cons, if_pos hq, dvalues, List.countP_cons, hv,
        Bool.false_eq_true, if_false] at *
      omega
    · simp only [List.map_cons, if_neg hq, dvalues, List.countP_cons] at *
      omega

theorem countP_dvalues_dput_le {k : String} {v : Shift} {p : Shift → Bool}
    (hv : p v = false) (l : List (String × Shift)) :
    (dvalues (dput l k v)).countP p ≤ (dvalues l).countP p := by
  unfold dput
  split
  · exact countP_dvalues_map_update_le hv l
  · simp [dvalues, List.countP_append, hv]

theorem two_le_countP_of_mem {α : Type} {p : α → Bool} {l : List α} {x y : α}
    [DecidableEq α]
    (hx : x ∈ l) (hy : y ∈ l) (hxy : x ≠ y) (hpx : p x = true) (hpy : p y = true) :
    2 ≤ l.countP p := by
  have hperm : List.Perm l (x :: l.erase x) := List.perm_cons_erase hx
  have hy' : y ∈ l.erase x := (List.mem_erase_of_ne (Ne.symm hxy)).mpr hy
  have h1 : 0 < (l.erase x).countP p := List.countP_pos_iff.mpr ⟨y, hy', hpy⟩
  have h2 : l.countP p = (x :: l.erase x).countP p := hperm.countP_eq p
  have h3 : (x :: l.erase x).countP p = (l.erase x).countP p + 1 := by
    rw [List.countP_cons, hpx]; simp
  omega

/-! ### The `max(attempts, key=...)` fold -/

theorem foldl_latest_spec (a : QuizAttempt) (rest : List QuizAttempt) :
    (rest.foldl (fun best x => if x.finished_at > best.finished_at then x else best) a)
        ∈ a :: rest ∧
      ∀ b ∈ a :: rest,
        b.finished_at ≤
          (rest.foldl (fun best x => if x.finished_at > best.finished_at then x else best)
              a).finished_at := by
  induction rest generalizing a with
  | nil => simp
  | cons x t ih =>
    simp only [List.foldl_cons]
    by_cases h : x.finished_at > a.finished_at
    · obtain ⟨ihmem, ihle⟩ := ih x
      rw [if_pos h]
      constructor
      · rcases List.mem_cons.mp ihmem with h1 | h1
        · exact List.mem_cons_of_mem _ (by rw [h1]; exact List.mem_cons_self _ _)
        · exact List.mem_cons_of_mem _ (List.mem_cons_of_mem _ h1)
      · intro b hb
        rcases List.mem_cons.mp hb with hba | hb2
        · rw [hba]
          exact le_trans (le_of_lt h) (ihle x (List.mem_cons_self _ _))
        · rcases List.mem_cons.mp hb2 with hbx | hb3
          · rw [hbx]
            exact ihle x (List.mem_cons_self _ _)
          · exact ihle b (List.mem_cons_of_mem _ hb3)
    · obtain ⟨ihmem, ihle⟩ := ih a
      rw [if_neg h]
      constructor
      · rcases List.mem_cons.mp ihmem with h1 | h1
        · rw [h1]; exact List.mem_cons_self _ _
        · exact List.mem_cons_of_mem _ (List.mem_cons_of_mem _ h1)
      · intro b hb
        rcases List.mem_cons.mp hb with hba | hb2
        · rw [hba]
          exact ihle a (List.mem_cons_self _ _)
        · rcases List.mem_cons.mp hb2 with hbx | hb3
          · rw [hbx]
            exact le_trans (le_of_not_lt h) (ihle a (List.mem_cons_self _ _))
          · exact ihle b (List.mem_cons_of_mem _ hb3)

/-! ### Branch-shape lemmas for the operations -/

theorem isSome_of_not_isNone {α : Type} {o : Option α} (h : ¬(o.isNone = true)) :
    o.isSome = true := by
  cases o with
  | none => exact absurd rfl h
  | some a => rfl

theorem open_shift_cases (st : Store) (now : Int) (newId cid : String)
    (payload : ShiftOpenRequest) :
    ((open_shift st now newId cid payload).2 = st ∧
       ∃ e, (open_shift st now newId cid payload).1 = .error e) ∨
      ((dget st.companies cid).isSome = true ∧
        hasOpenShiftFor st cid payload.user_id = false ∧
        open_shift st now newId cid payload =
          (.ok (openedShift (_get_policy st cid) now newId cid payload),
            { st with
              shifts := dput st.shifts newId
                (openedShift (_get_policy st cid) now newId cid payload) })) := by
  simp only [open_shift]
  split
  · exact .inl ⟨rfl, _, rfl⟩
  · next hcomp =>
    split
    · exact .inl ⟨rfl, _, rfl⟩
    · split
      · exact .inl ⟨rfl, _, rfl⟩
      · split
        · exact .inl ⟨rfl, _, rfl⟩
        · split
          · exact .inl ⟨rfl, _, rfl⟩
          · next hdup =>
            exact .inr ⟨isSome_of_not_isNone hcomp, by simpa using hdup, rfl⟩

theorem _validate_shift_close_some_ne {policy : PolicySettings}
    {payload : ShiftCloseRequest} {e : ApiError}
    (h : _validate_shift_close policy payload = some e) : e ≠ ApiError.shiftExpired := by
  unfold _validate_shift_close at h
  split at h
  · injection h with h1; rw [← h1]; decide
  · split at h
    · injection h with h1; rw [← h1]; decide
    · split at h
      · injection h with h1; rw [← h1]; decide
      · exact absurd h (by simp)

theorem close_shift_cases (st : Store) (now : Int) (cid sid : String)
    (payload : ShiftCloseRequest) :
    ((close_shift st now cid sid payload).2 = st ∧
       ∃ e, (close_shift st now cid sid payload).1 = .error e ∧ e ≠ .shiftExpired) ∨
      (∃ shift, dget st.shifts sid = some shift ∧ shift.status = .OPEN ∧
        now > shift.close_deadline_at ∧
        close_shift st now cid sid payload =
          (.error .shiftExpired,
            { st with shifts := dput st.shifts shift.id (expiredOf shift now) })) ∨
      (∃ shift, dget st.shifts sid = some shift ∧ shift.status = .OPEN ∧
        ¬(now > shift.close_deadline_at) ∧
        close_shift st now cid sid payload =
          (.ok (closedOf shift now payload),
            { st with shifts := dput st.shifts shift.id (closedOf shift now payload) })) := by
  simp only [close_shift]
  split
  · exact .inl ⟨rfl, .companyNotFound, rfl, by decide⟩
  · split
    · exact .inl ⟨rfl, .shiftNotFound, rfl, by decide⟩
    · next shift heq =>
      split
      · exact .inl ⟨rfl, .shiftNotFound, rfl, by decide⟩
      · next hco =>
        split
        · exact .inl ⟨rfl, .shiftNotOpen, rfl, by decide⟩
        · next hnop =>
          have hopen : shift.status = .OPEN := by simpa using hnop
          split
          · next hd => exact .inr (.inl ⟨shift, heq, hopen, hd, rfl⟩)
          · next hd =>
            split
            · exact .inl ⟨rfl, .monthlyTestOverdue, rfl, by decide⟩
            · split
              · next e heqv =>
                exact .inl ⟨rfl, e, rfl, _validate_shift_close_some_ne heqv⟩
              · exact .inr (.inr ⟨shift, heq, hopen, hd, rfl⟩)

theorem create_quiz_attempt_cases (st : Store) (now : Int) (newId cid qid : String)
    (payload : QuizAttemptCreate) :
    ((create_quiz_attempt st now newId cid qid payload).2 = st ∧
       ∃ e, (create_quiz_attempt st now newId cid qid payload).1 = .error e) ∨
      (∃ quiz, dget st.quizzes qid = some quiz ∧ quiz.company_id = cid ∧
        create_quiz_attempt st now newId cid qid payload =
          (.ok
            { id := newId, quiz_id := qid, user_id := payload.user_id,
              started_at := now, finished_at := now,
              score := _score_attempt st qid payload.answers,
              passed := decide (_score_attempt st qid payload.answers ≥ quiz.passing_score) },
            { st with
              quiz_attempts := dput st.quiz_attempts newId
                { id := newId, quiz_id := qid, user_id := payload.user_id,
                  started_at := now, finished_at := now,
                  score := _score_attempt st qid payload.answers,
                  passed := decide (_score_attempt st qid payload.answers ≥ quiz.passing_score) } })) := by
  simp only [create_quiz_attempt]
  split
  · exact .inl ⟨rfl, _, rfl⟩
  · split
    · exact .inl ⟨rfl, _, rfl⟩
    · next quiz heq =>
      split
      · exact .inl ⟨rfl, _, rfl⟩
      · next hco => exact .inr ⟨quiz, heq, by simpa using hco, rfl⟩

/-! ### Conditional unfolding equations -/

theorem open_shift_ok_eq {st : Store} {now : Int} {newId cid : String}
    {payload : ShiftOpenRequest}
    (hc : (dget st.companies cid).isSome = true)
    (hval : _validate_shift_open (_get_policy st cid) payload = none)
    (hu : (dget st.users payload.user_id).isSome = true)
    (hl : (dget st.locations payload.location_id).isSome = true)
    (hdup : hasOpenShiftFor st cid payload.user_id = false) :
    open_shift st now newId cid payload =
      (.ok (openedShift (_get_policy st cid) now newId cid payload),
        { st with
          shifts := dput st.shifts newId
            (openedShift (_get_policy st cid) now newId cid payload) }) := by
  obtain ⟨c, hc'⟩ := Option.isSome_iff_exists.mp hc
  obtain ⟨u, hu'⟩ := Option.isSome_iff_exists.mp hu
  obtain ⟨loc, hl'⟩ := Option.isSome_iff_exists.mp hl
  simp only [open_shift, hc', hval, hu', hl', hdup, Option.isNone_some,
    Bool.false_eq_true, if_false]
  rfl

theorem close_shift_expired_eq {st : Store} {now : Int} {cid sid : String}
    {payload : ShiftCloseRequest} {shift : Shift}
    (hc : (dget st.companies cid).isSome = true)
    (hs : dget st.shifts sid = some shift)
    (hco : shift.company_id = cid)
    (hop : shift.status = .OPEN)
    (hd : now > shift.close_deadline_at) :
    close_shift st now cid sid payload =
      (.error .shiftExpired,
        { st with shifts := dput st.shifts shift.id (expiredOf shift now) }) := by
  obtain ⟨c, hc'⟩ := Option.isSome_iff_exists.mp hc
  simp only [close_shift, hc', hs, Option.isNone_some, Bool.false_eq_true, if_false,
    hco, hop, bne_self_eq_false, if_pos hd]
  rfl

theorem close_shift_notOpen_eq {st : Store} {now : Int} {cid sid : String}
    {payload : ShiftCloseRequest} {shift : Shift}
    (hc : (dget st.companies cid).isSome = true)
    (hs : dget st.shifts sid = some shift)
    (hco : shift.company_id = cid)
    (hnop : shift.status ≠ .OPEN) :
    close_shift st now cid sid payload = (.error .shiftNotOpen, st) := by
  obtain ⟨c, hc'⟩ := Option.isSome_iff_exists.mp hc
  have hbne : (shift.status != ShiftStatus.OPEN) = true := by
    simpa using hnop
  simp only [close_shift, hc', hs, Option.isNone_some, Bool.false_eq_true, if_false,
    hco, bne_self_eq_false, hbne, if_true]

/-! ### Failure purity -/

theorem open_shift_error_store {st st' : Store} {now : Int} {newId cid : String}
    {payload : ShiftOpenRequest} {e : ApiError}
    (h : open_shift st now newId cid payload = (.error e, st')) : st' = st := by
  rcases open_shift_cases st now newId cid payload with ⟨h2, _⟩ | ⟨_, _, heq⟩
  · rw [h] at h2; exact h2
  · rw [h] at heq
    exact absurd (congrArg Prod.fst heq) (by simp)

theorem close_shift_error_store {st st' : Store} {now : Int} {cid sid : String}
    {payload : ShiftCloseRequest} {e : ApiError}
    (h : close_shift st now cid sid payload = (.error e, st'))
    (hne : e ≠ .shiftExpired) : st' = st := by
  rcases close_shift_cases st now cid sid payload with
    ⟨h2, _⟩ | ⟨shift, _, _, _, heq⟩ | ⟨shift, _, _, _, heq⟩
  · rw [h] at h2; exact h2
  · rw [h] at heq
    have := congrArg Prod.fst heq
    simp only at this
    injection this with h1
    exact absurd h1 hne
  · rw [h] at heq
    exact absurd (congrArg Prod.fst heq) (by simp)

theorem create_quiz_attempt_error_store {st st' : Store} {now : Int}
    {newId cid qid : String} {payload : QuizAttemptCreate} {e : ApiError}
    (h : create_quiz_attempt st now newId cid qid payload = (.error e, st')) : st' = st := by
  rcases create_quiz_attempt_cases st now newId cid qid payload with ⟨h2, _⟩ | ⟨q, _, _, heq⟩
  · rw [h] at h2; exact h2
  · rw [h] at heq
    exact absurd (congrArg Prod.fst heq) (by simp)

/-! ### Derived facts about the duplicate-open check and well-formed stores -/

theorem hasOpenShiftFor_iff (st : Store) (cid uid : String) :
    hasOpenShiftFor st cid uid = true ↔
      ∃ s ∈ dvalues st.shifts,
        s.company_id = cid ∧ s.user_id = uid ∧ s.status = .OPEN := by
  unfold hasOpenShiftFor
  rw [List.any_eq_true]
  constructor
  · rintro ⟨s, hs, hpred⟩
    obtain ⟨⟨h1, h2⟩, h3⟩ : (s.company_id = cid ∧ s.user_id = uid) ∧
        s.status = ShiftStatus.OPEN := by
      simpa [Bool.and_eq_true, beq_iff_eq] using hpred
    exact ⟨s, hs, h1, h2, h3⟩
  · rintro ⟨s, hs, h1, h2, h3⟩
    refine ⟨s, hs, ?_⟩
    rw [h1, h2, h3]
    simp

theorem ShiftsWF_dget {l : List (String × Shift)} {k : String} {v : Shift}
    (hwf : ShiftsWF l) (h : dget l k = some v) : v.id = k := by
  unfold dget at h
  cases hf : l.find? (fun p => p.1 == k) with
  | none => rw [hf] at h; simp at h
  | some p =>
    rw [hf] at h
    have h2 : p.2 = v := by simpa using h
    have hmem := List.mem_of_find?_eq_some hf
    have hkey := List.find?_some hf
    have hk : p.1 = k := by simpa using hkey
    rw [← h2, ← hwf p hmem, hk]

theorem open_shift_conflict_eq {st : Store} {now : Int} {newId cid : String}
    {payload : ShiftOpenRequest}
    (hc : (dget st.companies cid).isSome = true)
    (hval : _validate_shift_open (_get_policy st cid) payload = none)
    (hu : (dget st.users payload.user_id).isSome = true)
    (hl : (dget st.locations payload.location_id).isSome = true)
    (hdup : hasOpenShiftFor st cid payload.user_id = true) :
    open_shift st now newId cid payload = (.error .alreadyHasOpenShift, st) := by
  obtain ⟨c, hc'⟩ := Option.isSome_iff_exists.mp hc
  obtain ⟨u, hu'⟩ := Option.isSome_iff_exists.mp hu
  obtain ⟨loc, hl'⟩ := Option.isSome_iff_exists.mp hl
  simp only [open_shift, hc', hval, hu', hl', hdup, Option.isNone_some,
    Bool.false_eq_true, if_false, if_true]

/-! ### Preservation of the one-open-shift invariant -/

theorem atMostOneOpen_close_shift (st : Store) (now : Int) (cid sid : String)
    (payload : ShiftCloseRequest) (h : AtMostOneOpen st) :
    AtMostOneOpen (close_shift st now cid sid payload).2 := by
  rcases close_shift_cases st now cid sid payload with
    ⟨h2, _⟩ | ⟨shift, _, _, _, heq⟩ | ⟨shift, _, _, _, heq⟩
  · rw [h2]; exact h
  · intro cid' uid'
    rw [heq]
    unfold openCountFor
    refine le_trans (countP_dvalues_dput_le ?_ st.shifts) (h cid' uid')
    simp [expiredOf]
  · intro cid' uid'
    rw [heq]
    unfold openCountFor
    refine le_trans (countP_dvalues_dput_le ?_ st.shifts) (h cid' uid')
    simp [closedOf]

theorem atMostOneOpen_open_shift (st : Store) (now : Int) (newId cid : String)
    (payload : ShiftOpenRequest) (hfresh : dget st.shifts newId = none)
    (h : AtMostOneOpen st) :
    AtMostOneOpen (open_shift st now newId cid payload).2 := by
  rcases open_shift_cases st now newId cid payload with ⟨h2, _⟩ | ⟨_, hdup, heq⟩
  · rw [h2]; exact h
  · unfold hasOpenShiftFor dvalues at hdup
    intro cid' uid'
    rw [heq]
    unfold openCountFor dvalues
    rw [dput_fresh hfresh]
    simp only [List.map_append, List.countP_append]
    set sh := openedShift (_get_policy st cid) now newId cid payload with hsh
    by_cases hp : (sh.company_id == cid' && sh.user_id == uid' &&
        sh.status == ShiftStatus.OPEN) = true
    · obtain ⟨⟨hc1, hc2⟩, _⟩ : (sh.company_id = cid' ∧ sh.user_id = uid') ∧
          sh.status = ShiftStatus.OPEN := by
        simpa [Bool.and_eq_true, beq_iff_eq] using hp
      have hcid : cid = cid' := by simpa [hsh, openedShift] using hc1
      have huid : payload.user_id = uid' := by simpa [hsh, openedShift] using hc2
      subst hcid
      subst huid
      have h0 : (st.shifts.map Prod.snd).countP
          (fun s => s.company_id == cid && s.user_id == payload.user_id &&
            s.status == ShiftStatus.OPEN) = 0 := by
        rw [List.countP_eq_zero]
        intro s hs
        exact List.any_eq_false.mp hdup s hs
      rw [h0]
      have hle : (([(newId, sh)].map Prod.snd).countP
          (fun s => s.company_id == cid && s.user_id == payload.user_id &&
            s.status == ShiftStatus.OPEN)) ≤ 1 :=
        le_trans (List.countP_le_length _) (by simp)
      omega
    · have hzero : (([(newId, sh)].map Prod.snd).countP
          (fun s => s.company_id == cid' && s.user_id == uid' &&
            s.status == ShiftStatus.OPEN)) = 0 := by
        simp only [List.map_cons, List.map_nil]
        rw [List.countP_eq_zero]
        intro a ha
        have ha' : a = sh := by simpa using ha
        rw [ha']
        simpa using hp
      rw [hzero]
      have hle := h cid' uid'
      unfold openCountFor dvalues at hle
      omega

/-! ### Terminal statuses are preserved -/

theorem dget_mem {α : Type} {l : List (String × α)} {k : String} {v : α}
    (h : dget l k = some v) : ∃ p ∈ l, p.1 = k ∧ p.2 = v := by
  unfold dget at h
  cases hf : l.find? (fun p => p.1 == k) with
  | none => rw [hf] at h; simp at h
  | some p =>
    rw [hf] at h
    have h2 : p.2 = v := by simpa using h
    exact ⟨p, List.mem_of_find?_eq_some hf, by simpa using List.find?_some hf, h2⟩

theorem close_shift_preserves_nonopen {st : Store} {now : Int} {cid sid : String}
    {payload : ShiftCloseRequest} {k0 : String} {s0 : Shift}
    (hwf : ShiftsWF st.shifts)
    (h0 : dget st.shifts k0 = some s0)
    (hs0 : s0.status ≠ .OPEN) :
    dget (close_shift st now cid sid payload).2.shifts k0 = some s0 := by
  rcases close_shift_cases st now cid sid payload with
    ⟨h2, _⟩ | ⟨shift, hfound, hop, _, heq⟩ | ⟨shift, hfound, hop, _, heq⟩
  · rw [h2]; exact h0
  · rw [heq]
    have hid : shift.id = sid := ShiftsWF_dget hwf hfound
    have hk0 : k0 ≠ shift.id := by
      rw [hid]
      intro hcontra
      rw [hcontra, hfound] at h0
      injection h0 with h0'
      rw [← h0'] at hs0
      exact hs0 hop
    exact (dget_dput_ne hk0 st.shifts _).trans h0
  · rw [heq]
    have hid : shift.id = sid := ShiftsWF_dget hwf hfound
    have hk0 : k0 ≠ shift.id := by
      rw [hid]
      intro hcontra
      rw [hcontra, hfound] at h0
      injection h0 with h0'
      rw [← h0'] at hs0
      exact hs0 hop
    exact (dget_dput_ne hk0 st.shifts _).trans h0

theorem open_shift_preserves_at {st : Store} {now : Int} {newId cid : String}
    {payload : ShiftOpenRequest} {k0 : String} {s0 : Shift}
    (hfresh : dget st.shifts newId = none)
    (h0 : dget st.shifts k0 = some s0) :
    dget (open_shift st now newId cid payload).2.shifts k0 = some s0 := by
  rcases open_shift_cases st now newId cid payload with ⟨h2, _⟩ | ⟨_, _, heq⟩
  · rw [h2]; exact h0
  · rw [heq]
    have hk0 : k0 ≠ newId := by
      intro hcontra
      rw [hcontra, hfresh] at h0
      exact Option.noConfusion h0
    exact (dget_dput_ne hk0 st.shifts _).trans h0

/-! ### Slot release after lazy expiry -/

theorem hasOpenShiftFor_after_expiry {st : Store} {now : Int} {cid sid : String}
    {payload : ShiftCloseRequest} {shift : Shift}
    (hwf : ShiftsWF st.shifts)
    (hone : AtMostOneOpen st)
    (hc : (dget st.companies cid).isSome = true)
    (hs : dget st.shifts sid = some shift)
    (hco : shift.company_id = cid)
    (hop : shift.status = .OPEN)
    (hd : now > shift.close_deadline_at) :
    hasOpenShiftFor (close_shift st now cid sid payload).2 cid shift.user_id = false := by
  rw [close_shift_expired_eq hc hs hco hop hd]
  unfold hasOpenShiftFor
  rw [List.any_eq_false]
  intro s hsmem
  obtain ⟨q, hq_mem, hq_key, hq_val⟩ := dget_mem hs
  have hqid : shift.id = sid := ShiftsWF_dget hwf hs
  have hpres : st.shifts.any (fun p => p.1 == shift.id) = true :=
    List.any_eq_true.mpr ⟨q, hq_mem, by rw [hq_key, hqid]; simp⟩
  rw [show ({ st with shifts := dput st.shifts shift.id (expiredOf shift now) } : Store).shifts
      = dput st.shifts shift.id (expiredOf shift now) from rfl] at hsmem
  rw [dput, if_pos hpres] at hsmem
  simp only [dvalues, List.map_map] at hsmem
  obtain ⟨p, hp_mem, hp_eq⟩ := List.mem_map.mp hsmem
  by_cases hp1 : (p.1 == shift.id) = true
  · have : s = expiredOf shift now := by
      rw [← hp_eq]
      simp [Function.comp, hp1]
    rw [this]
    simp [expiredOf]
  · have hs_eq : s = p.2 := by
      rw [← hp_eq]
      simp [Function.comp, hp1]
    intro hpred
    have hqpred : ((fun s => s.company_id == cid && s.user_id == shift.user_id &&
        s.status == ShiftStatus.OPEN) ∘ Prod.snd) q = true := by
      simp only [Function.comp]
      rw [hq_val, hco, hop]
      simp
    have hppred : ((fun s => s.company_id == cid && s.user_id == shift.user_id &&
        s.status == ShiftStatus.OPEN) ∘ Prod.snd) p = true := by
      simp only [Function.comp]
      rw [← hs_eq]
      exact hpred
    have hpq : p ≠ q := by
      intro hcontra
      rw [hcontra, hq_key, hqid] at hp1
      exact hp1 (by simp)
    have h2le : 2 ≤ st.shifts.countP ((fun s => s.company_id == cid &&
        s.user_id == shift.user_id && s.status == ShiftStatus.OPEN) ∘ Prod.snd) :=
      two_le_countP_of_mem hq_mem hp_mem (Ne.symm hpq) hqpred hppred
    have hle1 := hone cid shift.user_id
    unfold openCountFor dvalues at hle1
    rw [List.countP_map] at hle1
    omega

/-! ### Sorting respects permutations -/

theorem pySorted_eq_of_perm {l l' : List Int} (h : List.Perm l l') :
    pySorted l = pySorted l' := by
  unfold pySorted
  refine List.eq_of_perm_of_sorted ?_ (List.sorted_insertionSort _ l)
    (List.sorted_insertionSort _ l')
  exact ((List.perm_insertionSort _ l).trans h).trans (List.perm_insertionSort _ l').symm

theorem pySorted_beq_iff_perm (sel cor : List Int) :
    (pySorted sel == pySorted cor) = true ↔ List.Perm sel cor := by
  rw [beq_iff_eq]
  constructor
  · intro h
    have h1 : List.Perm sel (pySorted sel) := (List.perm_insertionSort _ sel).symm
    rw [h] at h1
    exact h1.trans (List.perm_insertionSort _ cor)
  · exact pySorted_eq_of_perm

/-! ### Small helpers for witnesses -/

theorem atMostOneOpen_of_short {st : Store} (h : (dvalues st.shifts).length ≤ 1) :
    AtMostOneOpen st :=
  fun _ _ => le_trans (List.countP_le_length _) h

/-! ## Claim theorems -/

/-- C1: at most one OPEN Shift per `(company_id, user_id)`. When the earlier
open-shift preconditions pass and an OPEN shift of the same company and user
already exists, `open_shift` fails with the Conflict error
("User already has an open shift") and leaves the store unchanged; `open_shift`
never succeeds while such a duplicate exists; and both `open_shift` (with a
fresh id) and `close_shift` preserve the at-most-one-OPEN invariant on every
path, success or failure. -/
theorem C1_one_open_shift_per_user :
    (∀ (st : Store) (now : Int) (newId cid : String) (payload : ShiftOpenRequest),
        (dget st.companies cid).isSome = true →
        _validate_shift_open (_get_policy st cid) payload = none →
        (dget st.users payload.user_id).isSome = true →
        (dget st.locations payload.location_id).isSome = true →
        (∃ s ∈ dvalues st.shifts,
          s.company_id = cid ∧ s.user_id = payload.user_id ∧ s.status = .OPEN) →
        open_shift st now newId cid payload = (.error .alreadyHasOpenShift, st)) ∧
    (∀ (st : Store) (now : Int) (newId cid : String) (payload : ShiftOpenRequest)
        (sh : Shift),
        (open_shift st now newId cid payload).1 = .ok sh →
        ¬∃ s ∈ dvalues st.shifts,
          s.company_id = cid ∧ s.user_id = payload.user_id ∧ s.status = .OPEN) ∧
    (∀ (st : Store) (now : Int) (newId cid : String) (payload : ShiftOpenRequest),
        dget st.shifts newId = none → AtMostOneOpen st →
        AtMostOneOpen (open_shift st now newId cid payload).2) ∧
    (∀ (st : Store) (now : Int) (cid sid : String) (payload : ShiftCloseRequest),
        AtMostOneOpen st → AtMostOneOpen (close_shift st now cid sid payload).2) := by
  refine ⟨?_, ?_, ?_, ?_⟩
  · intro st now newId cid payload hc hval hu hl hdup
    exact open_shift_conflict_eq hc hval hu hl
      ((hasOpenShiftFor_iff st cid payload.user_id).mpr hdup)
  · intro st now newId cid payload sh hok hdup
    rcases open_shift_cases st now newId cid payload with ⟨_, e, herr⟩ | ⟨_, hfalse, _⟩
    · exact Except.noConfusion (herr.symm.trans hok)
    · have htrue := (hasOpenShiftFor_iff st cid payload.user_id).mpr hdup
      rw [hfalse] at htrue
      exact Bool.noConfusion htrue
  · exact fun st now newId cid payload h1 h2 =>
      atMostOneOpen_open_shift st now newId cid payload h1 h2
  · exact fun st now cid sid payload h1 =>
      atMostOneOpen_close_shift st now cid sid payload h1

/-- C1 witness: a second open for (c1, u1) while shift s0 is OPEN yields the
Conflict error and an unchanged store; `close_shift` keeps the invariant. -/
theorem C1_witness :
    open_shift cStoreOpen 10 "s1" "c1" cOpenPayload =
      (.error .alreadyHasOpenShift, cStoreOpen) ∧
    AtMostOneOpen (close_shift cStoreOpen 100 "c1" "s0" cClosePayload).2 :=
  ⟨C1_one_open_shift_per_user.1 cStoreOpen 10 "s1" "c1" cOpenPayload (by decide)
      (by decide) (by decide) (by decide) (by decide),
    C1_one_open_shift_per_user.2.2.2 cStoreOpen 100 "c1" "s0" cClosePayload
      (atMostOneOpen_of_short (by decide))⟩

/-- C2: a close attempt on an OPEN shift of the company after the deadline
fails with InvalidState(expired) yet persists the shift as EXPIRED with
`end_at = now`, changing no other field (close_data and cash_logs are
untouched); and this expiry branch is the only failure path of the embedded
operations that mutates the store — every error return of `open_shift`, of
`close_shift` with an error other than expiry, and of `create_quiz_attempt`
leaves the store exactly as it was. -/
theorem C2_expired_close_still_commits :
    (∀ (st : Store) (now : Int) (cid sid : String) (payload : ShiftCloseRequest)
        (shift : Shift),
        (dget st.companies cid).isSome = true →
        dget st.shifts sid = some shift →
        shift.company_id = cid →
        shift.status = .OPEN →
        now > shift.close_deadline_at →
        close_shift st now cid sid payload =
          (.error .shiftExpired,
            { st with shifts := dput st.shifts shift.id (expiredOf shift now) }) ∧
        (expiredOf shift now).status = .EXPIRED ∧
        (expiredOf shift now).end_at = some now ∧
        (expiredOf shift now).close_data = shift.close_data ∧
        (expiredOf shift now).cash_logs = shift.cash_logs ∧
        dget (dput st.shifts shift.id (expiredOf shift now)) shift.id =
          some (expiredOf shift now)) ∧
    (∀ (st st' : Store) (now : Int) (newId cid : String) (payload : ShiftOpenRequest)
        (e : ApiError),
        open_shift st now newId cid payload = (.error e, st') → st' = st) ∧
    (∀ (st st' : Store) (now : Int) (cid sid : String) (payload : ShiftCloseRequest)
        (e : ApiError),
        close_shift st now cid sid payload = (.error e, st') →
        e ≠ .shiftExpired → st' = st) ∧
    (∀ (st st' : Store) (now : Int) (newId cid qid : String)
        (payload : QuizAttemptCreate) (e : ApiError),
        create_quiz_attempt st now newId cid qid payload = (.error e, st') →
        st' = st) := by
  refine ⟨?_, ?_, ?_, ?_⟩
  · intro st now cid sid payload shift hc hs hco hop hd
    exact ⟨close_shift_expired_eq hc hs hco hop hd, rfl, rfl, rfl, rfl,
      dget_dput_self _ _ _⟩
  · exact fun st st' now newId cid payload e h => open_shift_error_store h
  · exact fun st st' now cid sid payload e h hne => close_shift_error_store h hne
  · exact fun st st' now newId cid qid payload e h => create_quiz_attempt_error_store h

/-- C2 witness: closing shift s0 (deadline 90) at time 100 fails with the
expiry error while persisting the EXPIRED shift. -/
theorem C2_witness :
    close_shift cStoreOpen 100 "c1" "s0" cClosePayload =
      (.error .shiftExpired,
        { cStoreOpen with
          shifts := dput cStoreOpen.shifts cShiftOpen.id (expiredOf cShiftOpen 100) }) ∧
    (expiredOf cShiftOpen 100).status = .EXPIRED ∧
    (expiredOf cShiftOpen 100).end_at = some 100 ∧
    (expiredOf cShiftOpen 100).close_data = cShiftOpen.close_data ∧
    (expiredOf cShiftOpen 100).cash_logs = cShiftOpen.cash_logs ∧
    dget (dput cStoreOpen.shifts cShiftOpen.id (expiredOf cShiftOpen 100)) cShiftOpen.id =
      some (expiredOf cShiftOpen 100) :=
  C2_expired_close_still_commits.1 cStoreOpen 100 "c1" "s0" cClosePayload cShiftOpen
    (by decide) (by decide) (by decide) (by decide) (by decide)

/-- C3: the deadline check precedes the monthly-compliance check and the
close-side validations: on an OPEN shift of the company with
`now > close_deadline_at`, `close_shift` yields InvalidState(expired) and a
subsequent read of the shift sees status EXPIRED — for every close payload and
regardless of the compliance state; and a shift opened under a policy with
`shift_close_deadline_minutes = 0` yields InvalidState(expired) on any close
attempt strictly after creation. -/
theorem C3_deadline_beats_validation :
    (∀ (st : Store) (now : Int) (cid sid : String) (payload : ShiftCloseRequest)
        (shift : Shift),
        (dget st.companies cid).isSome = true →
        dget st.shifts sid = some shift →
        shift.id = sid →
        shift.company_id = cid →
        shift.status = .OPEN →
        now > shift.close_deadline_at →
        (close_shift st now cid sid payload).1 = .error .shiftExpired ∧
        ∃ s', dget (close_shift st now cid sid payload).2.shifts sid = some s' ∧
          s'.status = .EXPIRED ∧ s'.end_at = some now) ∧
    (∀ (st : Store) (now : Int) (newId cid : String) (payload : ShiftOpenRequest)
        (sh : Shift) (st1 : Store) (now' : Int) (closePayload : ShiftCloseRequest),
        (_get_policy st cid).shift_close_deadline_minutes = 0 →
        open_shift st now newId cid payload = (.ok sh, st1) →
        now' > now →
        (close_shift st1 now' cid sh.id closePayload).1 = .error .shiftExpired) := by
  constructor
  · intro st now cid sid payload shift hc hs hid hco hop hd
    rw [close_shift_expired_eq hc hs hco hop hd]
    refine ⟨rfl, expiredOf shift now, ?_, rfl, rfl⟩
    rw [← hid]
    exact dget_dput_self _ _ _
  · intro st now newId cid payload sh st1 now' closePayload hdl hok hgt
    rcases open_shift_cases st now newId cid payload with ⟨_, e, herr⟩ | ⟨hcomp, _, heq⟩
    · exact absurd (herr.symm.trans (congrArg Prod.fst hok)) (by simp)
    · rw [hok] at heq
      have hsh : sh = openedShift (_get_policy st cid) now newId cid payload := by
        have h1 := congrArg Prod.fst heq
        simpa using h1
      have hst1 : st1 =
          { st with
            shifts := dput st.shifts newId
              (openedShift (_get_policy st cid) now newId cid payload) } := by
        have h1 := congrArg Prod.snd heq
        simpa using h1
      have hc1 : (dget st1.companies cid).isSome = true := by
        rw [hst1]; exact hcomp
      have hs1 : dget st1.shifts sh.id = some sh := by
        rw [hst1, hsh]
        exact dget_dput_self st.shifts newId _
      have hco1 : sh.company_id = cid := by rw [hsh]; rfl
      have hop1 : sh.status = .OPEN := by rw [hsh]; rfl
      have hd1 : now' > sh.close_deadline_at := by
        rw [hsh]
        show now' > now + (_get_policy st cid).shift_close_deadline_minutes
        rw [hdl, add_zero]
        exact hgt
      rw [close_shift_expired_eq hc1 hs1 hco1 hop1 hd1]

/-- C3 witness: under the zero-deadline policy, a shift opened at time 0 and
closed at time 1 reports the expiry error. -/
theorem C3_witness :
    (close_shift (open_shift cStoreZero 0 "s1" "c1" cOpenPayload).2 1 "c1"
        (openedShift (_get_policy cStoreZero "c1") 0 "s1" "c1" cOpenPayload).id
        cClosePayload).1 = .error .shiftExpired :=
  C3_deadline_beats_validation.2 cStoreZero 0 "s1" "c1" cOpenPayload
    (openedShift (_get_policy cStoreZero "c1") 0 "s1" "c1" cOpenPayload)
    (open_shift cStoreZero 0 "s1" "c1" cOpenPayload).2 1 cClosePayload
    (by decide) rfl (by decide)

/-- C4: `_monthly_test_passed` returns true iff either the policy does not
require the monthly test, or else the company has at least one quiz of type
"monthly", the user has a passing attempt on one of them, and a passing
attempt of maximal `finished_at` is within the 30-day window
(`finished_at ≥ now − 30 days`). In particular (fail-closed), with
`monthly_test_required = true` and no monthly quiz the result is false. -/
theorem C4_monthly_compliance :
    (∀ (st : Store) (now : Int) (cid uid : String),
        _monthly_test_passed st now cid uid = true ↔
          ((_get_policy st cid).monthly_test_required = false ∨
            (monthly_quiz_ids st cid ≠ [] ∧
              ∃ a ∈ monthly_passing_attempts st cid uid,
                (∀ b ∈ monthly_passing_attempts st cid uid,
                  b.finished_at ≤ a.finished_at) ∧
                now - thirtyDaysMinutes ≤ a.finished_at))) ∧
    (∀ (st : Store) (now : Int) (cid uid : String),
        (_get_policy st cid).monthly_test_required = true →
        monthly_quiz_ids st cid = [] →
        _monthly_test_passed st now cid uid = false) := by
  constructor
  · intro st now cid uid
    unfold _monthly_test_passed
    by_cases hreq : (_get_policy st cid).monthly_test_required
    · simp only [hreq, Bool.not_true, Bool.false_eq_true, if_false]
      by_cases hids : (monthly_quiz_ids st cid).isEmpty
      · simp only [hids, if_true]
        constructor
        · intro hfalse; exact absurd hfalse (by simp)
        · rintro (hleft | ⟨hne, _⟩)
          · exact absurd hleft (by simp)
          · exact absurd (List.isEmpty_iff.mp hids) hne
      · simp only [hids, Bool.false_eq_true, if_false]
        cases hatt : monthly_passing_attempts st cid uid with
        | nil =>
          dsimp only
          constructor
          · intro hfalse; exact absurd hfalse (by simp)
          · rintro (hleft | ⟨_, a, ha, _⟩)
            · exact absurd hleft (by simp)
            · exact absurd ha (List.not_mem_nil a)
        | cons a rest =>
          dsimp only
          obtain ⟨hmem, hle⟩ := foldl_latest_spec a rest
          constructor
          · intro htrue
            right
            refine ⟨fun hcontra => by rw [hcontra] at hids; exact hids rfl, ?_⟩
            refine ⟨rest.foldl
                (fun best x => if x.finished_at > best.finished_at then x else best) a,
              hmem, ?_, of_decide_eq_true htrue⟩
            intro b hb
            exact hle b hb
          · rintro (hleft | ⟨_, a', ha', _, hthr⟩)
            · exact absurd hleft (by simp)
            · apply decide_eq_true
              exact le_trans hthr (hle a' ha')
    · have hreq' : (_get_policy st cid).monthly_test_required = false := by
        simpa using hreq
      simp only [hreq', Bool.not_false, if_true]
      constructor
      · intro _; exact .inl trivial
      · intro _; trivial
  · intro st now cid uid hreq hids
    unfold _monthly_test_passed
    simp only [hreq, Bool.not_true, Bool.false_eq_true, if_false, hids,
      List.isEmpty_nil, if_true]

/-- C4 witness: with the default policy (monthly test required) and no monthly
quiz in the store, the user is not compliant. -/
theorem C4_witness :
    _monthly_test_passed cStoreOpen 0 "c1" "u1" = false :=
  C4_monthly_compliance.2 cStoreOpen 0 "c1" "u1" (by decide) (by decide)

/-- C5 counterexample: scoring is NOT set-based. For a question whose correct
answers are `[0]`, the selection `[0]` scores 100 but the duplicated selection
`[0, 0]` scores 0, even though both selections have the same SET `{0}` of
indices — so a question is not judged by set equality and the score is not
invariant under duplicating selected indices. -/
theorem C5_counterexample :
    ([0, 0] : List Int).toFinset = ([0] : List Int).toFinset ∧
    _score_attempt cStoreQuiz1 "qz1" [("q1", [0])] = 100 ∧
    _score_attempt cStoreQuiz1 "qz1" [("q1", [0, 0])] = 0 :=
  ⟨by decide, by decide, by decide⟩

/-- C5 (amended): quiz scoring compares the sorted list (multiset) of the
submitted selection with the sorted correct-answer list: a question counts as
correct iff the selection is a permutation of the correct-answer list, so the
score is invariant under reordering within any question's selection list —
but duplicating selected indices is significant. -/
theorem C5_multiset_scoring :
    (∀ (sel cor : List Int),
        (pySorted sel == pySorted cor) = true ↔ List.Perm sel cor) ∧
    (∀ (st : Store) (qid : String) (answers answers' : List (String × List Int)),
        (∀ k, List.Perm (aget answers k) (aget answers' k)) →
        _score_attempt st qid answers = _score_attempt st qid answers') := by
  refine ⟨pySorted_beq_iff_perm, ?_⟩
  intro st qid answers answers' h
  simp only [_score_attempt]
  have hcong : (quiz_questions_of st qid).countP (question_correct answers) =
      (quiz_questions_of st qid).countP (question_correct answers') := by
    apply List.countP_congr
    intro q _
    unfold question_correct
    constructor
    · intro h1
      exact (pySorted_beq_iff_perm _ _).mpr
        ((h q.id).symm.trans ((pySorted_beq_iff_perm _ _).mp h1))
    · intro h1
      exact (pySorted_beq_iff_perm _ _).mpr
        ((h q.id).trans ((pySorted_beq_iff_perm _ _).mp h1))
  rw [hcong]

/-- C5 witness: reordering the selection for question q1 leaves the score
unchanged. -/
theorem C5_witness :
    _score_attempt cStoreQuiz1 "qz1" [("q1", [0, 2])] =
      _score_attempt cStoreQuiz1 "qz1" [("q1", [2, 0])] :=
  C5_multiset_scoring.2 cStoreQuiz1 "qz1" [("q1", [0, 2])] [("q1", [2, 0])] (by
    intro k
    by_cases hk : (("q1" : String) == k) = true
    · have hk' : k = "q1" := (beq_iff_eq.mp hk).symm
      subst hk'
      decide
    · have hkf : (("q1" : String) == k) = false := by simpa using hk
      have h1 : aget [("q1", [0, 2])] k = [] := by simp [aget, List.find?, hkf]
      have h2 : aget [("q1", [2, 0])] k = [] := by simp [aget, List.find?, hkf]
      rw [h1, h2])

/-- C6: the score is 0 for a quiz with no questions and otherwise equals
`round(100 × correct_count / total_questions)` (banker's rounding on the exact
rational, matching Python's `round`); the created attempt records
`passed = (score ≥ quiz.passing_score)`; and concretely 3 correct out of 4
questions yields score 75 — passed at threshold 70, not passed at 80. -/
theorem C6_score_formula :
    (∀ (st : Store) (qid : String) (answers : List (String × List Int)),
        quiz_questions_of st qid = [] → _score_attempt st qid answers = 0) ∧
    (∀ (st : Store) (qid : String) (answers : List (String × List Int)),
        quiz_questions_of st qid ≠ [] →
        _score_attempt st qid answers =
          pyRound
            (100 * ((quiz_questions_of st qid).countP (question_correct answers) : Int))
            ((quiz_questions_of st qid).length : Int)) ∧
    (∀ (st st' : Store) (now : Int) (newId cid qid : String)
        (payload : QuizAttemptCreate) (quiz : Quiz) (attempt : QuizAttempt),
        dget st.quizzes qid = some quiz →
        create_quiz_attempt st now newId cid qid payload = (.ok attempt, st') →
        attempt.score = _score_attempt st qid payload.answers ∧
        attempt.passed = decide (attempt.score ≥ quiz.passing_score)) ∧
    (_score_attempt cStoreScoring "qzA" cAnswers3of4A = 75 ∧
      (create_quiz_attempt cStoreScoring 5 "at1" "c1" "qzA"
          ⟨"u1", cAnswers3of4A⟩).1 = .ok cAttemptA ∧
      (create_quiz_attempt cStoreScoring 5 "at2" "c1" "qzB"
          ⟨"u1", cAnswers3of4B⟩).1 = .ok cAttemptB) := by
  refine ⟨?_, ?_, ?_, by decide, rfl, rfl⟩
  · intro st qid answers hq
    simp only [_score_attempt, hq, List.isEmpty_nil, if_true]
  · intro st qid answers hne
    simp only [_score_attempt]
    rw [if_neg (fun h => hne (List.isEmpty_iff.mp h))]
    exact congrArg (fun n => pyRound n ((quiz_questions_of st qid).length : Int))
      (Int.mul_comm _ 100)
  · intro st st' now newId cid qid payload quiz attempt hquiz hok
    rcases create_quiz_attempt_cases st now newId cid qid payload with
      ⟨_, e, herr⟩ | ⟨quiz', hq', _, heq⟩
    · exact absurd (herr.symm.trans (congrArg Prod.fst hok)) (by simp)
    · rw [hok] at heq
      have hatt : attempt =
          { id := newId, quiz_id := qid, user_id := payload.user_id,
            started_at := now, finished_at := now,
            score := _score_attempt st qid payload.answers,
            passed := decide (_score_attempt st qid payload.answers ≥
              quiz'.passing_score) } := by
        have h1 := congrArg Prod.fst heq
        simpa using h1
      have hqq : quiz' = quiz := by
        rw [hquiz] at hq'
        injection hq' with h2
        exact h2.symm
      subst hqq
      rw [hatt]
      exact ⟨rfl, rfl⟩

/-- C6 witness: the attempt created for quiz A records the computed score and
the pass flag derived from the passing threshold. -/
theorem C6_witness :
    cAttemptA.score = _score_attempt cStoreScoring "qzA" cAnswers3of4A ∧
    cAttemptA.passed = decide (cAttemptA.score ≥ cQuizA.passing_score) :=
  C6_score_formula.2.2.1 cStoreScoring
    (create_quiz_attempt cStoreScoring 5 "at1" "c1" "qzA" ⟨"u1", cAnswers3of4A⟩).2
    5 "at1" "c1" "qzA" ⟨"u1", cAnswers3of4A⟩ cQuizA cAttemptA
    (by decide) rfl

/-- C7: policy resolution for a company with no stored PolicySettings record
returns the constructed defaults — deadline 90 minutes,
tests_block_shift_closure, monthly_test_required — and is total (it returns a
PolicySettings, never an error). -/
theorem C7_policy_defaults :
    ∀ (st : Store) (cid : String), dget st.policies cid = none →
      _get_policy st cid = ({} : PolicySettings) ∧
      (_get_policy st cid).shift_close_deadline_minutes = 90 ∧
      (_get_policy st cid).tests_block_shift_closure = true ∧
      (_get_policy st cid).monthly_test_required = true := by
  intro st cid h
  unfold _get_policy
  rw [h]
  exact ⟨rfl, rfl, rfl, rfl⟩

/-- C7 witness: the store with an empty policies dict resolves company c1 to
the default policy. -/
theorem C7_witness :
    _get_policy cStoreOpen "c1" = ({} : PolicySettings) ∧
    (_get_policy cStoreOpen "c1").shift_close_deadline_minutes = 90 ∧
    (_get_policy cStoreOpen "c1").tests_block_shift_closure = true ∧
    (_get_policy cStoreOpen "c1").monthly_test_required = true :=
  C7_policy_defaults cStoreOpen "c1" (by decide)

/-- C8: cash logs are written exactly when an amount is supplied and are
append-only: a successful open creates the shift with exactly one "open"
entry iff `cash_open_amount` is not None (an explicit 0.0 still yields an
entry with amount 0.0) and no entry otherwise; a successful close appends
exactly one "close" entry iff `cash_close_amount` is not None and leaves the
existing entries as an unchanged prefix. Concretely (spec §8): opening with
cash_open=100.0 yields one entry of amount 100.0, a close without
cash_close_amount fails ValidationError with the store unchanged, and a close
with cash_close_amount=150.0 succeeds with status CLOSED and two entries. -/
theorem C8_cash_logs_append_only :
    (∀ (st st' : Store) (now : Int) (newId cid : String)
        (payload : ShiftOpenRequest) (sh : Shift),
        open_shift st now newId cid payload = (.ok sh, st') →
        sh.cash_logs =
          (match payload.cash_open_amount with
           | some a => [{ type := "open", amount := a, created_at := now }]
           | none => [])) ∧
    (∀ (st st' : Store) (now : Int) (cid sid : String)
        (payload : ShiftCloseRequest) (sh' shift : Shift),
        dget st.shifts sid = some shift →
        close_shift st now cid sid payload = (.ok sh', st') →
        sh'.cash_logs = shift.cash_logs ++
          (match payload.cash_close_amount with
           | some a => [{ type := "close", amount := a, created_at := now }]
           | none => [])) ∧
    ((open_shift cStoreCash 0 "s1" "c1" cCashOpenPayload).1 =
        .ok (openedShift cPolicyCash 0 "s1" "c1" cCashOpenPayload) ∧
      (openedShift cPolicyCash 0 "s1" "c1" cCashOpenPayload).status = .OPEN ∧
      (openedShift cPolicyCash 0 "s1" "c1" cCashOpenPayload).cash_logs =
        [{ type := "open", amount := 100, created_at := 0 }] ∧
      close_shift cStoreCashOpened 30 "c1" "s1" {} =
        (.error .closingCashRequired, cStoreCashOpened) ∧
      ∃ sh2 st2, close_shift cStoreCashOpened 30 "c1" "s1"
          { cash_close_amount := some 150 } = (.ok sh2, st2) ∧
        sh2.status = .CLOSED ∧
        sh2.cash_logs =
          [{ type := "open", amount := 100, created_at := 0 },
           { type := "close", amount := 150, created_at := 30 }]) := by
  refine ⟨?_, ?_, rfl, rfl, by decide, rfl, ⟨_, _, rfl, rfl, by decide⟩⟩
  · intro st st' now newId cid payload sh hok
    rcases open_shift_cases st now newId cid payload with ⟨_, e, herr⟩ | ⟨_, _, heq⟩
    · exact absurd (herr.symm.trans (congrArg Prod.fst hok)) (by simp)
    · rw [hok] at heq
      have hsh : sh = openedShift (_get_policy st cid) now newId cid payload := by
        have h1 := congrArg Prod.fst heq
        simpa using h1
      rw [hsh]
      simp only [openedShift]
      cases hca : payload.cash_open_amount with
      | none => rfl
      | some a =>
        simp only
        by_cases ha : a = 0
        · subst ha; simp
        · have haf : ((a == 0) : Bool) = false := by simpa using ha
          simp [haf]
  · intro st st' now cid sid payload sh' shift hs hok
    rcases close_shift_cases st now cid sid payload with
      ⟨_, e, herr, _⟩ | ⟨shift', _, _, _, heq⟩ | ⟨shift', hfound, _, _, heq⟩
    · exact absurd (herr.symm.trans (congrArg Prod.fst hok)) (by simp)
    · rw [hok] at heq
      exact absurd (congrArg Prod.fst heq) (by simp)
    · rw [hok] at heq
      have hsh : sh' = closedOf shift' now payload := by
        have h1 := congrArg Prod.fst heq
        simpa using h1
      have hss : shift' = shift := by
        rw [hs] at hfound
        injection hfound with h2
        exact h2.symm
      rw [hsh, hss]
      rfl

/-- C8 witness: the shift created by the §8 scenario's open carries exactly
the single "open" cash entry of amount 100 at time 0. -/
theorem C8_witness :
    (openedShift (_get_policy cStoreCash "c1") 0 "s1" "c1" cCashOpenPayload).cash_logs =
      [{ type := "open", amount := 100, created_at := 0 }] :=
  C8_cash_logs_append_only.1 cStoreCash cStoreCashOpened 0 "s1" "c1"
    cCashOpenPayload _ rfl

/-- C9: CLOSED and EXPIRED are terminal. A close on a shift that is not OPEN
fails with InvalidState("Shift is not open") and leaves the store unchanged;
and no `close_shift` call (on a well-formed shifts dict) and no `open_shift`
call (with a fresh id) ever alters the stored record of a CLOSED or EXPIRED
shift. -/
theorem C9_terminal_states :
    (∀ (st : Store) (now : Int) (cid sid : String) (payload : ShiftCloseRequest)
        (shift : Shift),
        (dget st.companies cid).isSome = true →
        dget st.shifts sid = some shift →
        shift.company_id = cid →
        shift.status ≠ .OPEN →
        close_shift st now cid sid payload = (.error .shiftNotOpen, st)) ∧
    (∀ (st : Store) (now : Int) (cid sid : String) (payload : ShiftCloseRequest)
        (k0 : String) (s0 : Shift),
        ShiftsWF st.shifts →
        dget st.shifts k0 = some s0 →
        (s0.status = .CLOSED ∨ s0.status = .EXPIRED) →
        dget (close_shift st now cid sid payload).2.shifts k0 = some s0) ∧
    (∀ (st : Store) (now : Int) (newId cid : String) (payload : ShiftOpenRequest)
        (k0 : String) (s0 : Shift),
        dget st.shifts newId = none →
        dget st.shifts k0 = some s0 →
        dget (open_shift st now newId cid payload).2.shifts k0 = some s0) := by
  refine ⟨?_, ?_, ?_⟩
  · exact fun st now cid sid payload shift hc hs hco hnop =>
      close_shift_notOpen_eq hc hs hco hnop
  · intro st now cid sid payload k0 s0 hwf h0 hst
    exact close_shift_preserves_nonopen hwf h0 (by rcases hst with h | h <;> simp [h])
  · exact fun st now newId cid payload k0 s0 hf h0 => open_shift_preserves_at hf h0

/-- C9 witness: a second close on the already-CLOSED shift s0 yields
InvalidState and leaves both the store and the stored record untouched. -/
theorem C9_witness :
    close_shift cStoreClosed 60 "c1" "s0" cClosePayload =
      (.error .shiftNotOpen, cStoreClosed) ∧
    dget (close_shift cStoreClosed 60 "c1" "s0" cClosePayload).2.shifts "s0" =
      some cShiftClosed :=
  ⟨C9_terminal_states.1 cStoreClosed 60 "c1" "s0" cClosePayload cShiftClosed
      (by decide) (by decide) (by decide) (by decide),
    C9_terminal_states.2.1 cStoreClosed 60 "c1" "s0" cClosePayload "s0" cShiftClosed
      (by unfold ShiftsWF; decide) (by decide) (.inl (by decide))⟩

/-- C10: lazy expiry releases the user's open-shift slot. After a failed close
marks the user's OPEN shift EXPIRED, no OPEN shift of that (company, user)
remains — the duplicate-open check counts only status OPEN — and a subsequent
`open_shift` with the remaining preconditions satisfied succeeds. -/
theorem C10_expiry_releases_slot :
    (∀ (st : Store) (now : Int) (cid sid : String) (payload : ShiftCloseRequest)
        (shift : Shift),
        ShiftsWF st.shifts →
        AtMostOneOpen st →
        (dget st.companies cid).isSome = true →
        dget st.shifts sid = some shift →
        shift.company_id = cid →
        shift.status = .OPEN →
        now > shift.close_deadline_at →
        hasOpenShiftFor (close_shift st now cid sid payload).2 cid shift.user_id = false) ∧
    (∀ (st : Store) (now : Int) (newId cid : String) (payload : ShiftOpenRequest),
        (dget st.companies cid).isSome = true →
        _validate_shift_open (_get_policy st cid) payload = none →
        (dget st.users payload.user_id).isSome = true →
        (dget st.locations payload.location_id).isSome = true →
        hasOpenShiftFor st cid payload.user_id = false →
        (open_shift st now newId cid payload).1 =
          .ok (openedShift (_get_policy st cid) now newId cid payload)) := by
  constructor
  · exact fun st now cid sid payload shift hwf hone hc hs hco hop hd =>
      hasOpenShiftFor_after_expiry hwf hone hc hs hco hop hd
  · intro st now newId cid payload hc hval hu hl hdup
    rw [open_shift_ok_eq hc hval hu hl hdup]

/-- C10 witness: shift s0 expires on the failed close at time 100; afterwards
user u1 has no OPEN shift and a new open at time 101 succeeds. -/
theorem C10_witness :
    hasOpenShiftFor (close_shift cStoreOpen 100 "c1" "s0" cClosePayload).2
      "c1" "u1" = false ∧
    (open_shift (close_shift cStoreOpen 100 "c1" "s0" cClosePayload).2
        101 "s1" "c1" cOpenPayload).1 =
      .ok (openedShift
        (_get_policy (close_shift cStoreOpen 100 "c1" "s0" cClosePayload).2 "c1")
        101 "s1" "c1" cOpenPayload) :=
  ⟨C10_expiry_releases_slot.1 cStoreOpen 100 "c1" "s0" cClosePayload cShiftOpen
      (by unfold ShiftsWF; decide) (atMostOneOpen_of_short (by decide)) (by decide) (by decide)
      (by decide) (by decide) (by decide),
    C10_expiry_releases_slot.2 (close_shift cStoreOpen 100 "c1" "s0" cClosePayload).2
      101 "s1" "c1" cOpenPayload (by decide) (by decide) (by decide) (by decide)
      (by decide)⟩
